import Mathlib

/-!
# picotorrent: `core/torrent.cpp`

A shallow embedding of the status-projection wrapper `picotorrent::core::torrent`
(`src/src/core/torrent.cpp`) and the properties of its accessors, of the display-state
classification `update_state`, of `eta` and of the commands `resume` / `pause` send to the
engine handle.

Conventions of the embedding.

* C++ `int` and `int64_t` values are Lean `Int`s; where the source narrows or may wrap, the
  reduction into the signed range is written explicitly (`wrap_int32`, `wrap_int64`).
* The object `torrent` is the pair of its two data members `status_` and `state_`; a
  mutating method returns the new object.
* The engine handle `status_->handle` is external: a method that talks to it returns the
  sequence of calls it issues, in program order.
-/

/-! ## Machine integers -/

/-- Reduction of an integer modulo `2^32` into the signed 32-bit range: the value a C++
`int` holds after a narrowing conversion. -/
def wrap_int32 (x : Int) : Int := (x + 2 ^ 31) % 2 ^ 32 - 2 ^ 31

/-- Reduction of an integer modulo `2^64` into the signed 64-bit range. -/
def wrap_int64 (x : Int) : Int := (x + 2 ^ 63) % 2 ^ 64 - 2 ^ 63

/-! ## The engine's status record -/

/-- Modelled from the spec: the engine's enumeration `lt::torrent_status::state_t` is declared
in the wrapped library's header `libtorrent/torrent_status.hpp`, which is not among the
sources. The six enumerators `torrent.cpp` names are `checking_files`,
`downloading_metadata`, `downloading`, `finished`, `seeding` and `checking_resume_data`;
`queued_for_checking` and `allocating` are the library's remaining two enumerators, which
`torrent.cpp` never names. -/
inductive lt.torrent_status.state_t where
  | queued_for_checking
  | checking_files
  | downloading_metadata
  | downloading
  | finished
  | seeding
  | allocating
  | checking_resume_data
  deriving DecidableEq, Repr

/-- The fields of `lt::torrent_status` that `torrent.cpp` reads and that are plain data.
`errc` is the value of the engine's `error_code` (its conversion to `bool` is `errc != 0`).
The floating-point `progress`, the `info_hash`, the `torrent_file` pointer and the `handle`
are left out: no function below reads them (calls on the handle are recorded as
`handle_call`s). -/
structure lt.torrent_status where
  paused : Bool
  auto_managed : Bool
  errc : Int
  state : lt.torrent_status.state_t
  download_payload_rate : Int
  upload_payload_rate : Int
  total_wanted : Int
  total_wanted_done : Int
  queue_position : Int
  sequential_download : Bool
  name : String
  save_path : String
  deriving DecidableEq, Repr

/-- A call issued on the engine handle `status_->handle`. -/
inductive lt.handle_call where
  | auto_managed (flag : Bool)
  | pause
  | resume
  | clear_error
  | set_upload_mode (flag : Bool)
  deriving DecidableEq, Repr

set_option linter.dupNamespace false

namespace picotorrent.core

/-! ## The display state -/

/-- Modelled from the spec: `torrent_state::state_t` is declared in
`picotorrent/core/torrent_state.hpp`, which is not among the sources; these are the
enumerators `torrent.cpp` assigns to `state_`. -/
inductive torrent_state.state_t where
  | unknown
  | error
  | uploading_paused
  | downloading_paused
  | uploading_queued
  | downloading_queued
  | uploading_forced
  | uploading
  | uploading_stalled
  | checking_resume_data
  | downloading_checking
  | downloading_metadata
  | downloading_forced
  | downloading
  | downloading_stalled
  deriving DecidableEq, Repr

/-- The data members of `picotorrent::core::torrent`. -/
structure torrent where
  status_ : lt.torrent_status
  state_ : torrent_state.state_t
  deriving DecidableEq, Repr

/-! ## Accessors -/

/-- Method `torrent::download_rate`. -/
def torrent.download_rate (t : torrent) : Int :=
  t.status_.download_payload_rate

/-- Method `torrent::upload_rate`. -/
def torrent.upload_rate (t : torrent) : Int :=
  t.status_.upload_payload_rate

/-- Method `torrent::queue_position`. -/
def torrent.queue_position (t : torrent) : Int :=
  t.status_.queue_position

/-- Method `torrent::state`. -/
def torrent.state (t : torrent) : torrent_state.state_t :=
  t.state_

/-- Method `torrent::has_error`: `status_->paused && status_->errc`. -/
def torrent.has_error (t : torrent) : Bool :=
  t.status_.paused && (t.status_.errc != 0)

/-- Method `torrent::is_checking`. -/
def torrent.is_checking (t : torrent) : Bool :=
  t.status_.state == lt.torrent_status.state_t.checking_files
    || t.status_.state == lt.torrent_status.state_t.checking_resume_data

/-- Method `torrent::is_forced`. -/
def torrent.is_forced (t : torrent) : Bool :=
  !t.status_.paused && !t.status_.auto_managed

/-- Method `torrent::is_paused`. -/
def torrent.is_paused (t : torrent) : Bool :=
  t.status_.paused && !t.status_.auto_managed

/-- Method `torrent::is_queued`. -/
def torrent.is_queued (t : torrent) : Bool :=
  t.status_.paused && t.status_.auto_managed

/-- Method `torrent::is_seeding`. -/
def torrent.is_seeding (t : torrent) : Bool :=
  t.status_.state == lt.torrent_status.state_t.finished
    || t.status_.state == lt.torrent_status.state_t.seeding

/-! ## `eta` -/

/-- The local `int64_t remaining` of `torrent::eta`:
`status_->total_wanted - status_->total_wanted_done`. -/
def torrent.eta_remaining (t : torrent) : Int :=
  wrap_int64 (t.status_.total_wanted - t.status_.total_wanted_done)

/-- Method `torrent::eta`. The quotient is C++ integer division (truncation toward zero)
and the cast `(int)` narrows it. -/
def torrent.eta (t : torrent) : Int :=
  if t.is_paused then
    -1
  else
    let remaining := t.eta_remaining
    if remaining > 0 && t.status_.download_payload_rate > 0 then
      wrap_int32 (Int.tdiv remaining t.status_.download_payload_rate)
    else
      -1

/-! ## `update` and the classification -/

/-- Method `torrent::update_state`. The `switch` has no `default:` label, so for an engine
state it does not list no assignment to `state_` is made. -/
def torrent.update_state (t : torrent) : torrent :=
  if t.is_paused then
    if t.has_error then
      { t with state_ := torrent_state.state_t.error }
    else
      if t.is_seeding then
        { t with state_ := torrent_state.state_t.uploading_paused }
      else
        { t with state_ := torrent_state.state_t.downloading_paused }
  else
    if t.is_queued && !t.is_checking then
      if t.is_seeding then
        { t with state_ := torrent_state.state_t.uploading_queued }
      else
        { t with state_ := torrent_state.state_t.downloading_queued }
    else
      match t.status_.state with
      | lt.torrent_status.state_t.finished
      | lt.torrent_status.state_t.seeding =>
        if t.is_forced then
          { t with state_ := torrent_state.state_t.uploading_forced }
        else
          if t.status_.upload_payload_rate > 0 then
            { t with state_ := torrent_state.state_t.uploading }
          else
            { t with state_ := torrent_state.state_t.uploading_stalled }
      | lt.torrent_status.state_t.checking_resume_data =>
        { t with state_ := torrent_state.state_t.checking_resume_data }
      | lt.torrent_status.state_t.checking_files =>
        { t with state_ := torrent_state.state_t.downloading_checking }
      | lt.torrent_status.state_t.downloading_metadata =>
        { t with state_ := torrent_state.state_t.downloading_metadata }
      | lt.torrent_status.state_t.downloading =>
        if t.is_forced then
          { t with state_ := torrent_state.state_t.downloading_forced }
        else
          if t.status_.download_payload_rate > 0 then
            { t with state_ := torrent_state.state_t.downloading }
          else
            { t with state_ := torrent_state.state_t.downloading_stalled }
      | lt.torrent_status.state_t.queued_for_checking => t
      | lt.torrent_status.state_t.allocating => t

/-- Method `torrent::update`: replace the stored status, then reclassify. -/
def torrent.update (t : torrent) (status : lt.torrent_status) : torrent :=
  torrent.update_state { t with status_ := status }

/-! ## Commands to the engine handle -/

/-- Method `torrent::pause`. `calls` is the log of calls issued on the handle so far; the
result is the object after the call and the extended log. -/
def torrent.pause (t : torrent) (calls : List lt.handle_call) :
    torrent × List lt.handle_call :=
  if t.is_paused then
    (t, calls)
  else
    let calls := calls ++ [lt.handle_call.auto_managed false]
    let calls := calls ++ [lt.handle_call.pause]
    (t, calls)

/-- Method `torrent::resume`. `calls` is the log of calls issued on the handle so far; the
result is the object after the call and the extended log. -/
def torrent.resume (t : torrent) (force : Bool) (calls : List lt.handle_call) :
    torrent × List lt.handle_call :=
  let calls := if t.has_error then calls ++ [lt.handle_call.clear_error] else calls
  let calls := calls ++ [lt.handle_call.set_upload_mode false]
  let calls := calls ++ [lt.handle_call.auto_managed (!force)]
  let calls := calls ++ [lt.handle_call.resume]
  (t, calls)

/-- The auto-management setting most recently requested in a log of handle calls, if any. -/
def requested_auto_managed : List lt.handle_call → Option Bool
  | [] => none
  | lt.handle_call.auto_managed flag :: rest =>
    match requested_auto_managed rest with
    | some later => some later
    | none => some flag
  | _ :: rest => requested_auto_managed rest

/-- The constructor `torrent::torrent(const lt::torrent_status &st)`. -/
def torrent.torrent (st : lt.torrent_status) : picotorrent.core.torrent :=
  { status_ := st, state_ := torrent_state.state_t.unknown }

/-! ## Concrete statuses -/

/-- A running, auto-managed download with no traffic and 1000 bytes wanted. -/
def status_downloading : lt.torrent_status :=
  { paused := false, auto_managed := true, errc := 0,
    state := lt.torrent_status.state_t.downloading,
    download_payload_rate := 0, upload_payload_rate := 0,
    total_wanted := 1000, total_wanted_done := 0, queue_position := 0,
    sequential_download := false, name := "a", save_path := "/" }

/-- The same torrent while the engine allocates its storage. -/
def status_allocating : lt.torrent_status :=
  { status_downloading with state := lt.torrent_status.state_t.allocating }

/-- A torrent queued by the engine (paused and auto-managed) that carries an error code. -/
def status_queued_error : lt.torrent_status :=
  { status_downloading with paused := true, errc := 1 }

/-- A torrent paused by the user that carries an error code. -/
def status_paused_error : lt.torrent_status :=
  { status_downloading with paused := true, auto_managed := false, errc := 1 }

/-- A finished torrent paused by the user, without error. -/
def status_paused_finished : lt.torrent_status :=
  { status_downloading with
    paused := true, auto_managed := false, state := lt.torrent_status.state_t.finished }

/-- A seeding torrent queued by the engine. -/
def status_queued_seeding : lt.torrent_status :=
  { status_downloading with paused := true, state := lt.torrent_status.state_t.seeding }

/-- A forced (not auto-managed) running download with no traffic. -/
def status_forced_downloading : lt.torrent_status :=
  { status_downloading with auto_managed := false }

/-- A queued torrent whose files are being checked. -/
def status_queued_checking : lt.torrent_status :=
  { status_downloading with
    paused := true, state := lt.torrent_status.state_t.checking_files }

/-- An auto-managed seeding torrent that uploads at 5 bytes per second. -/
def status_seeding_active : lt.torrent_status :=
  { status_downloading with
    state := lt.torrent_status.state_t.seeding, upload_payload_rate := 5 }

/-- A running torrent that is still fetching its metadata. -/
def status_metadata : lt.torrent_status :=
  { status_downloading with state := lt.torrent_status.state_t.downloading_metadata }

/-- A running download of 2 GiB at one byte per second. -/
def status_slow_2gib : lt.torrent_status :=
  { status_downloading with total_wanted := 2147483648, download_payload_rate := 1 }

/-- A running download of 4 GiB - 1 bytes at one byte per second. -/
def status_slow_4gib : lt.torrent_status :=
  { status_downloading with total_wanted := 4294967295, download_payload_rate := 1 }

/-- A running download of 1000 bytes at 300 bytes per second. -/
def status_eta_3 : lt.torrent_status :=
  { status_downloading with download_payload_rate := 300 }

/-! ## Basic facts about `update` -/

theorem update_state_status_ (t : torrent) : t.update_state.status_ = t.status_ := by
  unfold torrent.update_state
  split_ifs <;> first | rfl | (split <;> rfl)

theorem update_status_ (t : torrent) (s : lt.torrent_status) : (t.update s).status_ = s := by
  unfold torrent.update
  rw [update_state_status_]

/-- For a status some branch of `update_state` handles (it is paused, or its engine state is
one the `switch` lists) the display state after `update` is a function of the status. -/
theorem update_state_of_handled (t u : torrent) (s : lt.torrent_status)
    (h : s.paused = true ∨ (s.state ≠ lt.torrent_status.state_t.queued_for_checking
      ∧ s.state ≠ lt.torrent_status.state_t.allocating)) :
    (t.update s).state = (u.update s).state := by
  obtain ⟨p, a, e, st, dr, ur, tw, twd, q, sd, n, sp⟩ := s
  cases p <;> cases a <;> cases st <;>
    simp [torrent.update, torrent.update_state, torrent.is_paused, torrent.has_error,
      torrent.is_seeding, torrent.is_queued, torrent.is_checking, torrent.is_forced,
      torrent.state] at h ⊢

/-! ## The display state as a function of the status -/

/-- C1 (evaluated on the code): the display state after `update(s)` is not determined by `s`
alone. For the engine state `allocating` on a running torrent no branch of `update_state`
assigns `state_`, so a freshly constructed object keeps `unknown` while an object that was
updated with a downloading status before keeps `downloading_stalled`. -/
theorem update_allocating_keeps_previous_state :
    ((torrent.torrent status_downloading).update status_allocating).state
        = torrent_state.state_t.unknown
      ∧ (((torrent.torrent status_downloading).update status_downloading).update
          status_allocating).state = torrent_state.state_t.downloading_stalled := by
  constructor <;> rfl

/-- C2: after `update(s)` the accessors `download_rate`, `upload_rate` and `queue_position`
return the fields of `s`, whatever status `s0` the object was constructed from and whatever
statuses `earlier` it was updated with in between. -/
theorem update_projects_rates (s0 : lt.torrent_status) (earlier : List lt.torrent_status)
    (s : lt.torrent_status) :
    ((earlier.foldl torrent.update (torrent.torrent s0)).update s).download_rate
        = s.download_payload_rate
      ∧ ((earlier.foldl torrent.update (torrent.torrent s0)).update s).upload_rate
        = s.upload_payload_rate
      ∧ ((earlier.foldl torrent.update (torrent.torrent s0)).update s).queue_position
        = s.queue_position := by
  simp [torrent.download_rate, torrent.upload_rate, torrent.queue_position, update_status_]

/-- C3 (as stated, refuted): for a queued status (paused and auto-managed) with an error code
`has_error()` returns true after `update`, yet the display state is `downloading_queued`, not
`error`. -/
theorem has_error_without_error_state :
    ¬ ((((torrent.torrent status_downloading).update status_queued_error).state
          = torrent_state.state_t.error)
        ↔ ((torrent.torrent status_downloading).update status_queued_error).has_error
          = true) := by
  decide

/-- C3 (amended): for a status some branch of `update_state` handles, the display state after
`update(s)` is `error` exactly when the torrent is user-paused (`is_paused()`) and
`has_error()` returns true, that is when `s.paused` is set, `s.auto_managed` is clear and
`s.errc` is non-zero. -/
theorem state_error_iff (t : torrent) (s : lt.torrent_status)
    (h : s.paused = true ∨ (s.state ≠ lt.torrent_status.state_t.queued_for_checking
      ∧ s.state ≠ lt.torrent_status.state_t.allocating)) :
    ((t.update s).state = torrent_state.state_t.error
        ↔ ((t.update s).is_paused = true ∧ (t.update s).has_error = true))
      ∧ (((t.update s).is_paused = true ∧ (t.update s).has_error = true)
        ↔ (s.paused = true ∧ s.auto_managed = false ∧ s.errc ≠ 0)) := by
  obtain ⟨p, a, e, st, dr, ur, tw, twd, q, sd, n, sp⟩ := s
  cases p <;> cases a <;> cases st <;>
    simp [torrent.update, torrent.update_state, torrent.is_paused, torrent.has_error,
      torrent.is_seeding, torrent.is_queued, torrent.is_checking, torrent.is_forced,
      torrent.state] at h ⊢ <;>
    split_ifs <;> simp_all

theorem state_error_iff_witness :
    (status_paused_error.paused = true
        ∨ (status_paused_error.state ≠ lt.torrent_status.state_t.queued_for_checking
          ∧ status_paused_error.state ≠ lt.torrent_status.state_t.allocating))
      ∧ ((((torrent.torrent status_downloading).update status_paused_error).state
            = torrent_state.state_t.error
          ↔ (((torrent.torrent status_downloading).update status_paused_error).is_paused = true
            ∧ ((torrent.torrent status_downloading).update status_paused_error).has_error
              = true))
        ∧ ((((torrent.torrent status_downloading).update status_paused_error).is_paused = true
            ∧ ((torrent.torrent status_downloading).update status_paused_error).has_error
              = true)
          ↔ (status_paused_error.paused = true ∧ status_paused_error.auto_managed = false
            ∧ status_paused_error.errc ≠ 0))) :=
  ⟨by decide,
    state_error_iff (torrent.torrent status_downloading) status_paused_error (by decide)⟩

/-! ## The branches of the classification -/

/-- C4: for a user-paused status (`paused` set, `auto_managed` clear), whatever the engine
state and the rates, the display state after `update(s)` is `error` if `s.errc` is set,
otherwise `uploading_paused` if the engine state is `finished` or `seeding`, otherwise
`downloading_paused`. -/
theorem user_pause_takes_precedence (t : torrent) (s : lt.torrent_status)
    (hp : s.paused = true) (ha : s.auto_managed = false) :
    (t.update s).state =
      if s.errc ≠ 0 then torrent_state.state_t.error
      else if s.state = lt.torrent_status.state_t.finished
          ∨ s.state = lt.torrent_status.state_t.seeding then
        torrent_state.state_t.uploading_paused
      else torrent_state.state_t.downloading_paused := by
  obtain ⟨p, a, e, st, dr, ur, tw, twd, q, sd, n, sp⟩ := s
  simp only at hp ha
  subst hp ha
  cases st <;>
    simp [torrent.update, torrent.update_state, torrent.is_paused, torrent.has_error,
      torrent.is_seeding, torrent.state] <;>
    split_ifs <;> rfl

theorem user_pause_takes_precedence_witness :
    status_paused_finished.paused = true ∧ status_paused_finished.auto_managed = false
      ∧ ((torrent.torrent status_downloading).update status_paused_finished).state
        = torrent_state.state_t.uploading_paused :=
  ⟨by decide, by decide,
    user_pause_takes_precedence (torrent.torrent status_downloading) status_paused_finished
      (by decide) (by decide)⟩

/-- C5: for a queued status (`paused` and `auto_managed` both set) whose engine state is
neither `checking_files` nor `checking_resume_data`, the display state after `update(s)` is
`uploading_queued` if the engine state is `finished` or `seeding` and `downloading_queued`
otherwise, whatever the rates and the error code. -/
theorem queued_not_checking (t : torrent) (s : lt.torrent_status)
    (hp : s.paused = true) (ha : s.auto_managed = true)
    (hc : s.state ≠ lt.torrent_status.state_t.checking_files
      ∧ s.state ≠ lt.torrent_status.state_t.checking_resume_data) :
    (t.update s).state =
      if s.state = lt.torrent_status.state_t.finished
          ∨ s.state = lt.torrent_status.state_t.seeding then
        torrent_state.state_t.uploading_queued
      else torrent_state.state_t.downloading_queued := by
  obtain ⟨p, a, e, st, dr, ur, tw, twd, q, sd, n, sp⟩ := s
  simp only at hp ha
  subst hp ha
  cases st <;>
    simp [torrent.update, torrent.update_state, torrent.is_paused, torrent.is_queued,
      torrent.is_checking, torrent.is_seeding, torrent.state] at hc ⊢

theorem queued_not_checking_witness :
    status_queued_seeding.paused = true ∧ status_queued_seeding.auto_managed = true
      ∧ (status_queued_seeding.state ≠ lt.torrent_status.state_t.checking_files
        ∧ status_queued_seeding.state ≠ lt.torrent_status.state_t.checking_resume_data)
      ∧ ((torrent.torrent status_downloading).update status_queued_seeding).state
        = torrent_state.state_t.uploading_queued :=
  ⟨by decide, by decide, by decide,
    queued_not_checking (torrent.torrent status_downloading) status_queued_seeding
      (by decide) (by decide) (by decide)⟩

/-- C6: for a status with `paused` clear. If the engine state is `downloading`, the display
state after `update(s)` is `downloading_forced` when `auto_managed` is clear, otherwise
`downloading` when `download_payload_rate > 0` and `downloading_stalled` when it is `<= 0`.
If the engine state is `finished` or `seeding`, it is `uploading_forced` when `auto_managed` is
clear, otherwise `uploading` when `upload_payload_rate > 0` and `uploading_stalled` when it is
`<= 0`. In these cases a forced torrent is never shown as stalled, and the display state does
not depend on the rate of the other direction. -/
theorem running_download_and_upload (t : torrent) (s : lt.torrent_status)
    (hp : s.paused = false) :
    (s.state = lt.torrent_status.state_t.downloading →
        (t.update s).state =
            (if s.auto_managed = false then torrent_state.state_t.downloading_forced
            else if s.download_payload_rate > 0 then torrent_state.state_t.downloading
            else torrent_state.state_t.downloading_stalled)
          ∧ ∀ r : Int, (t.update { s with upload_payload_rate := r }).state
              = (t.update s).state)
      ∧ (s.state = lt.torrent_status.state_t.finished
          ∨ s.state = lt.torrent_status.state_t.seeding →
        (t.update s).state =
            (if s.auto_managed = false then torrent_state.state_t.uploading_forced
            else if s.upload_payload_rate > 0 then torrent_state.state_t.uploading
            else torrent_state.state_t.uploading_stalled)
          ∧ ∀ r : Int, (t.update { s with download_payload_rate := r }).state
              = (t.update s).state)
      ∧ (s.auto_managed = false →
          s.state = lt.torrent_status.state_t.downloading
            ∨ s.state = lt.torrent_status.state_t.finished
            ∨ s.state = lt.torrent_status.state_t.seeding →
          (t.update s).state ≠ torrent_state.state_t.downloading_stalled
            ∧ (t.update s).state ≠ torrent_state.state_t.uploading_stalled) := by
  obtain ⟨p, a, e, st, dr, ur, tw, twd, q, sd, n, sp⟩ := s
  simp only at hp
  subst hp
  cases a <;> cases st <;>
    simp [torrent.update, torrent.update_state, torrent.is_paused, torrent.is_queued,
      torrent.is_checking, torrent.is_seeding, torrent.is_forced, torrent.state] <;>
    split_ifs <;> simp

theorem running_download_and_upload_witness :
    (status_forced_downloading.paused = false
        ∧ status_forced_downloading.state = lt.torrent_status.state_t.downloading
        ∧ status_forced_downloading.auto_managed = false
        ∧ ((torrent.torrent status_downloading).update status_forced_downloading).state
          = torrent_state.state_t.downloading_forced
        ∧ ((torrent.torrent status_downloading).update status_forced_downloading).state
          ≠ torrent_state.state_t.downloading_stalled)
      ∧ (status_seeding_active.paused = false
        ∧ status_seeding_active.state = lt.torrent_status.state_t.seeding
        ∧ ((torrent.torrent status_downloading).update status_seeding_active).state
          = torrent_state.state_t.uploading
        ∧ ((torrent.torrent status_downloading).update
            { status_seeding_active with download_payload_rate := 7 }).state
          = ((torrent.torrent status_downloading).update status_seeding_active).state) :=
  ⟨⟨by decide, by decide, by decide,
      ((running_download_and_upload (torrent.torrent status_downloading)
        status_forced_downloading (by decide)).1 (by decide)).1,
      ((running_download_and_upload (torrent.torrent status_downloading)
        status_forced_downloading (by decide)).2.2 (by decide) (by decide)).1⟩,
    ⟨by decide, by decide,
      ((running_download_and_upload (torrent.torrent status_downloading)
        status_seeding_active (by decide)).2.1 (by decide)).1,
      ((running_download_and_upload (torrent.torrent status_downloading)
        status_seeding_active (by decide)).2.1 (by decide)).2 7⟩⟩

/-- C7: for a status that is not user-paused (not (`paused` and not `auto_managed`)), the
display state after `update(s)` is `downloading_checking` when the engine state is
`checking_files` and `checking_resume_data` when it is `checking_resume_data`, also when the
status is queued or forced; and for a status with `paused` clear and engine state
`downloading_metadata` it is `downloading_metadata`. -/
theorem checking_takes_precedence (t : torrent) (s : lt.torrent_status) :
    (¬ (s.paused = true ∧ s.auto_managed = false) →
        (s.state = lt.torrent_status.state_t.checking_files →
          (t.update s).state = torrent_state.state_t.downloading_checking)
        ∧ (s.state = lt.torrent_status.state_t.checking_resume_data →
          (t.update s).state = torrent_state.state_t.checking_resume_data))
      ∧ (s.paused = false → s.state = lt.torrent_status.state_t.downloading_metadata →
          (t.update s).state = torrent_state.state_t.downloading_metadata) := by
  obtain ⟨p, a, e, st, dr, ur, tw, twd, q, sd, n, sp⟩ := s
  cases p <;> cases a <;> cases st <;>
    simp [torrent.update, torrent.update_state, torrent.is_paused, torrent.is_queued,
      torrent.is_checking, torrent.is_seeding, torrent.is_forced, torrent.state]

theorem checking_takes_precedence_witness :
    (¬ (status_queued_checking.paused = true ∧ status_queued_checking.auto_managed = false)
        ∧ status_queued_checking.state = lt.torrent_status.state_t.checking_files
        ∧ ((torrent.torrent status_downloading).update status_queued_checking).state
          = torrent_state.state_t.downloading_checking)
      ∧ (status_metadata.paused = false
        ∧ status_metadata.state = lt.torrent_status.state_t.downloading_metadata
        ∧ ((torrent.torrent status_downloading).update status_metadata).state
          = torrent_state.state_t.downloading_metadata) :=
  ⟨⟨by decide, by decide,
      ((checking_takes_precedence (torrent.torrent status_downloading)
        status_queued_checking).1 (by decide)).1 (by decide)⟩,
    ⟨by decide, by decide,
      (checking_takes_precedence (torrent.torrent status_downloading)
        status_metadata).2 (by decide) (by decide)⟩⟩

/-! ## The estimated time of arrival -/

theorem wrap_int32_of_range (q : Int) (h0 : 0 ≤ q) (h1 : q ≤ 2 ^ 31 - 1) :
    wrap_int32 q = q := by
  unfold wrap_int32
  omega

/-- C8: with `remaining = total_wanted - total_wanted_done` (64-bit signed) and
`rate = download_payload_rate`, `eta()` returns `-1` if the status is user-paused or
`remaining <= 0` or `rate <= 0`; otherwise, when `remaining / rate <= 2^31 - 1`, it returns the
truncated quotient `q = remaining / rate`, and `q * rate <= remaining < (q + 1) * rate` and
`q >= 0`. -/
theorem eta_reference (t : torrent) :
    ((t.status_.paused = true ∧ t.status_.auto_managed = false)
          ∨ t.eta_remaining ≤ 0 ∨ t.status_.download_payload_rate ≤ 0 →
        t.eta = -1)
      ∧ (¬ ((t.status_.paused = true ∧ t.status_.auto_managed = false)
          ∨ t.eta_remaining ≤ 0 ∨ t.status_.download_payload_rate ≤ 0) →
        Int.tdiv t.eta_remaining t.status_.download_payload_rate ≤ 2 ^ 31 - 1 →
        t.eta = Int.tdiv t.eta_remaining t.status_.download_payload_rate
          ∧ Int.tdiv t.eta_remaining t.status_.download_payload_rate
              * t.status_.download_payload_rate ≤ t.eta_remaining
          ∧ t.eta_remaining
              < (Int.tdiv t.eta_remaining t.status_.download_payload_rate + 1)
                * t.status_.download_payload_rate
          ∧ 0 ≤ Int.tdiv t.eta_remaining t.status_.download_payload_rate) := by
  constructor
  · intro h
    unfold torrent.eta torrent.is_paused
    rcases h with ⟨hp, ha⟩ | h | h
    · simp [hp, ha]
    · have hc : (decide (t.eta_remaining > 0)
          && decide (t.status_.download_payload_rate > 0)) = false := by
        simp only [Bool.and_eq_false_iff, decide_eq_false_iff_not]
        omega
      simp [hc]
    · have hc : (decide (t.eta_remaining > 0)
          && decide (t.status_.download_payload_rate > 0)) = false := by
        simp only [Bool.and_eq_false_iff, decide_eq_false_iff_not]
        omega
      simp [hc]
  · intro h hq
    have hr : 0 < t.eta_remaining := by
      by_contra hc
      exact h (Or.inr (Or.inl (by omega)))
    have hd : 0 < t.status_.download_payload_rate := by
      by_contra hc
      exact h (Or.inr (Or.inr (by omega)))
    have hnp : t.is_paused = false := by
      unfold torrent.is_paused
      by_contra hc
      simp only [Bool.not_eq_false, Bool.and_eq_true, Bool.not_eq_true'] at hc
      exact h (Or.inl hc)
    have hdiv : Int.tdiv t.eta_remaining t.status_.download_payload_rate
        = t.eta_remaining / t.status_.download_payload_rate :=
      Int.tdiv_eq_ediv (le_of_lt hr) (le_of_lt hd)
    have hq0 : 0 ≤ t.eta_remaining / t.status_.download_payload_rate :=
      Int.ediv_nonneg (le_of_lt hr) (le_of_lt hd)
    have hmod := Int.emod_add_ediv t.eta_remaining t.status_.download_payload_rate
    have hm0 := Int.emod_nonneg t.eta_remaining (ne_of_gt hd)
    have hm1 := Int.emod_lt_of_pos t.eta_remaining hd
    rw [hdiv] at hq ⊢
    refine ⟨?_, ?_, ?_, hq0⟩
    · unfold torrent.eta
      simp only [hnp, Bool.false_eq_true, if_false, hr, hd, decide_True, Bool.and_self,
        if_true, gt_iff_lt]
      rw [hdiv]
      exact wrap_int32_of_range _ hq0 hq
    · nlinarith
    · nlinarith

theorem eta_reference_witness :
    (¬ ((status_eta_3.paused = true ∧ status_eta_3.auto_managed = false)
          ∨ (torrent.torrent status_eta_3).eta_remaining ≤ 0
          ∨ status_eta_3.download_payload_rate ≤ 0)
        ∧ Int.tdiv (torrent.torrent status_eta_3).eta_remaining
            status_eta_3.download_payload_rate ≤ 2 ^ 31 - 1
        ∧ (torrent.torrent status_eta_3).eta = 3)
      ∧ ((status_paused_error.paused = true ∧ status_paused_error.auto_managed = false)
        ∧ (torrent.torrent status_paused_error).eta = -1) :=
  ⟨⟨by decide, by decide,
      ((eta_reference (torrent.torrent status_eta_3)).2 (by decide) (by decide)).1⟩,
    ⟨by decide, (eta_reference (torrent.torrent status_paused_error)).1 (Or.inl (by decide))⟩⟩

/-- C9 (evaluated on the code): `eta()` can return a negative value other than `-1`, and can
return `-1` for a running torrent with `remaining > 0` and `rate > 0`. With 2 GiB remaining at
one byte per second the quotient `2^31` narrows to `-2^31`; with `2^32 - 1` bytes remaining
at one byte per second the quotient narrows to `-1`. -/
theorem eta_narrowing_overflows :
    (torrent.torrent status_slow_2gib).eta = -2147483648
      ∧ (torrent.torrent status_slow_4gib).eta = -1
      ∧ (torrent.torrent status_slow_4gib).is_paused = false
      ∧ (torrent.torrent status_slow_4gib).eta_remaining = 4294967295
      ∧ status_slow_4gib.download_payload_rate = 1
      ∧ 0 ≤ status_slow_4gib.total_wanted ∧ status_slow_4gib.total_wanted < 2 ^ 63
      ∧ 0 ≤ status_slow_4gib.total_wanted_done := by
  decide

/-! ## Commands to the engine handle -/

/-- C10: `resume(force)` appends to the log of handle calls, in this order, `clear_error()` if
and only if `has_error()` holds on the stored status, then `set_upload_mode(false)`, then
`auto_managed(!force)`, then `resume()`. The auto-management setting it requests is therefore
off for `resume(true)` and on for `resume(false)`, and the object (stored status and display
state) is left unchanged. -/
theorem resume_calls (t : torrent) (force : Bool) (calls : List lt.handle_call) :
    (t.resume force calls).2 =
        calls ++ (if t.has_error = true then
          [lt.handle_call.clear_error, lt.handle_call.set_upload_mode false,
            lt.handle_call.auto_managed (!force), lt.handle_call.resume]
        else
          [lt.handle_call.set_upload_mode false,
            lt.handle_call.auto_managed (!force), lt.handle_call.resume])
      ∧ requested_auto_managed (t.resume true []).2 = some false
      ∧ requested_auto_managed (t.resume false []).2 = some true
      ∧ (t.resume force calls).1 = t
      ∧ (t.resume force calls).1.status_ = t.status_
      ∧ (t.resume force calls).1.state = t.state := by
  refine ⟨?_, ?_, ?_, rfl, rfl, rfl⟩
  · unfold torrent.resume
    split_ifs <;> simp
  · unfold torrent.resume
    split_ifs <;> simp [requested_auto_managed]
  · unfold torrent.resume
    split_ifs <;> simp [requested_auto_managed]

/-- C11: `pause()` appends no call to the log of handle calls when `is_paused()` holds on the
stored status (`paused` set and `auto_managed` clear); otherwise it appends exactly
`auto_managed(false)` followed by `pause()`. In both cases the object is unchanged: the stored
status, `state()` and hence `is_paused()` are the same after `pause()` as before it. -/
theorem pause_calls (t : torrent) (calls : List lt.handle_call) :
    (t.pause calls).2 =
        calls ++ (if t.status_.paused = true ∧ t.status_.auto_managed = false then []
          else [lt.handle_call.auto_managed false, lt.handle_call.pause])
      ∧ (t.is_paused = true ↔ (t.status_.paused = true ∧ t.status_.auto_managed = false))
      ∧ (t.pause calls).1 = t
      ∧ (t.pause calls).1.status_ = t.status_
      ∧ (t.pause calls).1.state = t.state
      ∧ (t.pause calls).1.is_paused = t.is_paused := by
  have hp : (t.pause calls).1 = t := by
    unfold torrent.pause
    split_ifs <;> rfl
  refine ⟨?_, ?_, hp, ?_, ?_, ?_⟩
  · unfold torrent.pause torrent.is_paused
    cases t.status_.paused <;> cases t.status_.auto_managed <;> simp
  · unfold torrent.is_paused
    cases t.status_.paused <;> cases t.status_.auto_managed <;> simp
  · rw [hp]
  · rw [hp]
  · rw [hp]

theorem pause_calls_witness :
    (torrent.torrent status_downloading).is_paused = false
      ∧ ((torrent.torrent status_downloading).pause []).2
        = [lt.handle_call.auto_managed false, lt.handle_call.pause]
      ∧ (torrent.torrent status_paused_error).is_paused = true
      ∧ ((torrent.torrent status_paused_error).pause []).2 = [] :=
  ⟨by decide, (pause_calls (torrent.torrent status_downloading) []).1,
    by decide, (pause_calls (torrent.torrent status_paused_error) []).1⟩

/-! ## Invariants -/

/-- C12: a newly constructed torrent has `state() == unknown`; for every torrent whose `state()`
is not `unknown` and every status `s`, `state()` is still not `unknown` after `update(s)`; and
whenever some branch of `update_state` assigns (the status is paused, or its engine state is
one the `switch` lists) the result is not `unknown`, whatever the state was before. -/
theorem unknown_only_initial (s0 : lt.torrent_status) (t : torrent) (s : lt.torrent_status) :
    (torrent.torrent s0).state = torrent_state.state_t.unknown
      ∧ (t.state ≠ torrent_state.state_t.unknown →
        (t.update s).state ≠ torrent_state.state_t.unknown)
      ∧ (s.paused = true ∨ (s.state ≠ lt.torrent_status.state_t.queued_for_checking
          ∧ s.state ≠ lt.torrent_status.state_t.allocating) →
        (t.update s).state ≠ torrent_state.state_t.unknown) := by
  refine ⟨rfl, ?_, ?_⟩
  · obtain ⟨p, a, e, st, dr, ur, tw, twd, q, sd, n, sp⟩ := s
    intro h
    cases p <;> cases a <;> cases st <;>
      simp [torrent.update, torrent.update_state, torrent.is_paused, torrent.has_error,
        torrent.is_seeding, torrent.is_queued, torrent.is_checking, torrent.is_forced,
        torrent.state] at h ⊢ <;>
      first | exact h | (split_ifs <;> simp)
  · obtain ⟨p, a, e, st, dr, ur, tw, twd, q, sd, n, sp⟩ := s
    intro h
    cases p <;> cases a <;> cases st <;>
      simp [torrent.update, torrent.update_state, torrent.is_paused, torrent.has_error,
        torrent.is_seeding, torrent.is_queued, torrent.is_checking, torrent.is_forced,
        torrent.state] at h ⊢ <;>
      split_ifs <;> simp

theorem unknown_only_initial_witness :
    ((torrent.torrent status_downloading).update status_downloading).state
        ≠ torrent_state.state_t.unknown
      ∧ (((torrent.torrent status_downloading).update status_downloading).update
          status_allocating).state ≠ torrent_state.state_t.unknown
      ∧ (status_queued_seeding.paused = true
        ∧ ((torrent.torrent status_downloading).update status_queued_seeding).state
          ≠ torrent_state.state_t.unknown) :=
  ⟨by decide,
    (unknown_only_initial status_downloading
      ((torrent.torrent status_downloading).update status_downloading)
      status_allocating).2.1 (by decide),
    by decide,
    (unknown_only_initial status_downloading (torrent.torrent status_downloading)
      status_queued_seeding).2.2 (Or.inl (by decide))⟩

/-- C13: for every status at most one of `is_paused()`, `is_queued()` and `is_forced()` holds;
none of them holds exactly when `paused` is clear and `auto_managed` is set; and `has_error()`
implies `is_paused()` or `is_queued()`. -/
theorem pause_flags_exclusive (t : torrent) :
    (¬ (t.is_paused = true ∧ t.is_queued = true)
        ∧ ¬ (t.is_paused = true ∧ t.is_forced = true)
        ∧ ¬ (t.is_queued = true ∧ t.is_forced = true))
      ∧ ((t.is_paused = false ∧ t.is_queued = false ∧ t.is_forced = false)
        ↔ (t.status_.paused = false ∧ t.status_.auto_managed = true))
      ∧ (t.has_error = true → t.is_paused = true ∨ t.is_queued = true) := by
  unfold torrent.is_paused torrent.is_queued torrent.is_forced torrent.has_error
  cases t.status_.paused <;> cases t.status_.auto_managed <;> simp

theorem pause_flags_exclusive_witness :
    (torrent.torrent status_queued_error).has_error = true
      ∧ ((torrent.torrent status_queued_error).is_paused = true
        ∨ (torrent.torrent status_queued_error).is_queued = true) :=
  ⟨by decide,
    (pause_flags_exclusive (torrent.torrent status_queued_error)).2.2 (by decide)⟩

end picotorrent.core
